import Mathlib

/-!
Verification of the ImageGenerativeAI repository core: the generation-job
lifecycle (backend `generationsController.ts`, `models/User.ts` generation
model, `middleware/errorHandler.ts`, `middleware/auth.ts`,
`utils/validation.ts`, auth controller) and the client-side retry/cancel
controller (`frontend/src/components/Studio.tsx`).

The embedding is shallow: each TypeScript function that a claim touches is
translated to an executable Lean definition over explicit state (lists of
database rows, explicit component state for the React client).  JavaScript
peculiarities that matter to the claims are modelled explicitly and noted
at the definition site: string `includes`, falsy coercion of `""` and
`null`/`undefined`, `parseInt`, render-scope (stale-closure) capture of
React state, and the `jsonwebtoken` class hierarchy.
-/

namespace ImageGen

/-! ## JavaScript string / value helpers -/

/-- Model of JavaScript `s.includes(pattern)` (substring test). -/
def jsIncludes (s pattern : String) : Bool :=
  decide (List.IsInfix pattern.toList s.toList)

/-- Model of the JavaScript expression `v || null` on an optional string:
`undefined`, `null` and the empty string (falsy) all collapse to `null`. -/
def jsOrNull : Option String → Option String
  | none => none
  | some s => if s = "" then none else some s

/-- Model of Node `path.join(a, b)` for the two-argument uses in the
controller (no `.` / `..` normalisation is exercised by those call sites). -/
def pathJoin (a b : String) : String :=
  if a = "" then b else a ++ "/" ++ b

/-- Split of a character list at every occurrence of a separator, the
semantics of JavaScript `String.prototype.split` with a one-character
separator (always at least one, possibly empty, piece). -/
def splitOnChar (sep : Char) : List Char → List (List Char)
  | [] => [[]]
  | c :: rest =>
    let r := splitOnChar sep rest
    if c = sep then [] :: r
    else
      match r with
      | [] => [[c]]
      | h :: t => (c :: h) :: t

/-- Model of Node `path.basename`: the part after the last `/`. -/
def pathBasename (p : String) : String :=
  String.mk ((splitOnChar '/' p.toList).getLastD [])

/-- Model of Node `path.dirname`: everything before the last `/`
(`"."` when there is no separator), as used on upload paths. -/
def pathDirname (p : String) : String :=
  let parts := splitOnChar '/' p.toList
  if parts.length ≤ 1 then "."
  else String.mk (List.intercalate ['/'] parts.dropLast)

/-- Model of JavaScript `String.prototype.trim`: strip the leading and
trailing whitespace characters. -/
def jsTrim (s : String) : String :=
  let ws : Char → Bool := fun c => c = ' ' ∨ c = '\t' ∨ c = '\n' ∨ c = '\r'
  String.mk (((s.toList.dropWhile ws).reverse.dropWhile ws).reverse)

/-! ## Errors and the Express error handler

Thrown JavaScript errors are modelled as records carrying the fields the
middleware inspects: `name`, `message`, the optional `statusCode` that
`AppError` adds, and whether the value is an `instanceof
jwt.JsonWebTokenError` (the one `instanceof` test the code performs). -/

/-- Record of a thrown JavaScript error as observed by the middleware. -/
structure ThrownErr where
  name : String
  message : String
  statusCode : Option Nat
  jwtInstance : Bool
  deriving Repr, DecidableEq

/-- Model of `new AppError(message, statusCode)` (`errorHandler.ts` lines
8-19): the class extends `Error` without overriding `name`, so `name` is
`"Error"`; it is not a `jsonwebtoken` error. -/
def appError (message : String) (statusCode : Nat) : ThrownErr :=
  { name := "Error", message := message, statusCode := some statusCode,
    jwtInstance := false }

/-- Model of a plain `new Error(message)` (no `statusCode` property). -/
def plainError (message : String) : ThrownErr :=
  { name := "Error", message := message, statusCode := none,
    jwtInstance := false }

/-- Model of a `ZodError` reaching the handler; the `message` field stands
for the first issue message that `errorHandler` extracts from the parsed
issue array (`errorHandler.ts` lines 31-39). -/
def zodError (firstIssueMessage : String) : ThrownErr :=
  { name := "ZodError", message := firstIssueMessage, statusCode := none,
    jwtInstance := false }

/-- Model of `errorHandler` (`errorHandler.ts` lines 21-86): returns the
HTTP status and body message it sends.  Branches appear in source order:
default status from `err.statusCode || 500`, the `ZodError` rewrite, the
two SQLite unique-constraint rewrites, the `not found` substring rewrite,
the two JWT `name` branches, and the final scrub of 500 messages. -/
def errorHandler (err : ThrownErr) : Nat × String :=
  let statusCode := err.statusCode.getD 500
  let message := err.message
  let sm :=
    if err.name = "ZodError" then (400, message) else (statusCode, message)
  let sm :=
    if jsIncludes err.message "UNIQUE constraint failed: users.email" then
      (400, "User with this email already exists")
    else sm
  let sm :=
    if jsIncludes err.message "UNIQUE constraint failed: generations.id" then
      (500, "Generation ID conflict")
    else sm
  let sm :=
    if jsIncludes err.message "not found" || jsIncludes err.message "Not found" then
      (404, sm.2)
    else sm
  let sm := if err.name = "JsonWebTokenError" then (401, "Invalid token") else sm
  let sm := if err.name = "TokenExpiredError" then (401, "Token expired") else sm
  (sm.1, if sm.1 = 500 then "Internal server error" else sm.2)

/-- HTTP reply of a route: either a success payload with its status, or the
failure status and message produced by `errorHandler`. -/
inductive Reply (α : Type) where
  | success (status : Nat) (payload : α)
  | failure (status : Nat) (message : String)
  deriving Repr, DecidableEq

/-- Send an `Except`-style controller result through the error middleware,
as `asyncHandler` + `errorHandler` do for a rejected handler promise. -/
def sendThrough {α : Type} (okStatus : Nat) : Except ThrownErr α → Reply α
  | .ok a => .success okStatus a
  | .error e => .failure (errorHandler e).1 (errorHandler e).2

/-! ## Credential store and login (`models/User.ts` UserModel,
auth controller `login`) -/

/-- Persisted user row (`users` table). -/
structure UserRow where
  id : Nat
  email : String
  password : String
  created_at : String
  deriving Repr, DecidableEq

/-- Model of `UserModel.findByEmail` (`User.ts` lines 38-54):
`SELECT * FROM users WHERE email = ?`, `null` when absent. -/
def findByEmail (users : List UserRow) (email : String) : Option UserRow :=
  users.find? (fun u => u.email = email)

/-- Payload of a successful login (`data.user` plus token; the token is an
opaque string produced by `generateToken`). -/
structure LoginPayload where
  userId : Nat
  email : String
  created_at : String
  token : String
  deriving Repr, DecidableEq

/-- Model of the auth controller `login` body after schema validation
(auth controller lines 46-78).  `compare` stands for
`bcrypt.compare : (plaintext, storedHash) → Bool` and `mkToken` for
`generateToken`; both are inputs so the model commits to nothing about
hashing.  Either failure branch throws
`AppError('Invalid email or password', 401)`. -/
def login (compare : String → String → Bool) (mkToken : Nat → String → String)
    (users : List UserRow) (email password : String) :
    Except ThrownErr LoginPayload :=
  match findByEmail users email with
  | none => .error (appError "Invalid email or password" 401)
  | some user =>
    if compare password user.password then
      .ok { userId := user.id, email := user.email,
            created_at := user.created_at, token := mkToken user.id user.email }
    else
      .error (appError "Invalid email or password" 401)

/-- Full login route result: controller then error middleware
(success status 200). -/
def loginRoute (compare : String → String → Bool)
    (mkToken : Nat → String → String) (users : List UserRow)
    (email password : String) : Reply LoginPayload :=
  sendThrough 200 (login compare mkToken users email password)

/-! ## Generation job store (`models/User.ts` `GenerationModel`, table
`generations`)

The `status` column is `TEXT` in the schema (`database.ts` lines 36-48),
so `status` is modelled as a `String`; the call sites write the literals
`'processing'`, `'completed'`, `'failed'`.  `created_at` is the creation
timestamp (`DATETIME DEFAULT CURRENT_TIMESTAMP`), modelled as a `Nat`
that orders rows chronologically exactly as SQLite orders the stored
datetime text. -/

/-- Persisted generation row (`generations` table). -/
structure GenRow where
  id : String
  user_id : Nat
  prompt : String
  style : String
  image_path : Option String
  result_image_path : Option String
  status : String
  created_at : Nat
  deriving Repr, DecidableEq

/-- Model of `GenerationModel.create` (`User.ts` lines 104-134): `INSERT`
with the literal status `'processing'` and no result path; rejects with the
SQLite unique-constraint error when the primary key `id` already exists. -/
def genCreate (db : List GenRow) (id : String) (userId : Nat)
    (prompt style : String) (imagePath : Option String) (now : Nat) :
    Except ThrownErr (List GenRow) :=
  if db.any (fun g => g.id = id) then
    .error (plainError "UNIQUE constraint failed: generations.id")
  else
    .ok (db ++ [{ id := id, user_id := userId, prompt := prompt,
                  style := style, image_path := jsOrNull imagePath,
                  result_image_path := none, status := "processing",
                  created_at := now }])

/-- Model of `GenerationModel.findById` (`User.ts` lines 136-156): rejects
with a plain `Error('Generation not found')` when no row matches. -/
def genFindById (db : List GenRow) (id : String) : Except ThrownErr GenRow :=
  match db.find? (fun g => g.id = id) with
  | none => .error (plainError "Generation not found")
  | some g => .ok g

/-- Model of `GenerationModel.updateStatus` (`User.ts` lines 176-205):
`UPDATE generations SET status = ?, result_image_path = ? WHERE id = ?`;
the bound result value is `resultImagePath || null` (so the empty string
collapses to `null`), and zero changed rows reject with
`Error('Generation not found')`.  `updRow` is the effect of the `UPDATE`
on one row. -/
def updRow (id status : String) (resultImagePath : Option String)
    (g : GenRow) : GenRow :=
  if g.id = id then
    { g with status := status, result_image_path := jsOrNull resultImagePath }
  else g

/-- SQL `UPDATE ... WHERE id = ?` over the row list; see `updRow`. -/
def updateStatus (db : List GenRow) (id status : String)
    (resultImagePath : Option String) : Except ThrownErr (List GenRow) :=
  if db.any (fun g => g.id = id) then
    .ok (db.map (updRow id status resultImagePath))
  else
    .error (plainError "Generation not found")

/-! ## Job API controllers (`controllers/generationsController.ts`) -/

/-- Generation as the API serialises it (`generationsController.ts` lines
128-136 and 162-170): raw paths are replaced by `/uploads/`-prefixed URLs,
with JavaScript truthiness (`gen.result_image_path ? url : null`) sending
both `null` and the empty string to `null`. -/
structure GenView where
  id : String
  prompt : String
  style : String
  status : String
  imageUrl : Option String
  resultImageUrl : Option String
  created_at : Nat
  deriving Repr, DecidableEq

/-- Transform of a stored row into the serialised view. -/
def toGenView (g : GenRow) : GenView :=
  { id := g.id, prompt := g.prompt, style := g.style, status := g.status,
    imageUrl := (jsOrNull g.image_path).map (fun p => "/uploads/" ++ pathBasename p),
    resultImageUrl :=
      (jsOrNull g.result_image_path).map (fun p => "/uploads/" ++ pathBasename p),
    created_at := g.created_at }

/-- Model of `getGeneration` (`generationsController.ts` lines 147-178)
after authentication: find by id (404-able), then the ownership check
throwing `AppError('Access denied', 403)`, then the 200 payload. -/
def getGeneration (userId : Nat) (id : String) (db : List GenRow) :
    Except ThrownErr GenView :=
  match genFindById db id with
  | .error e => .error e
  | .ok g =>
    if g.user_id ≠ userId then .error (appError "Access denied" 403)
    else .ok (toGenView g)

/-- Full `GET /api/generations/:id` reply for an authenticated caller. -/
def getGenerationRoute (userId : Nat) (id : String) (db : List GenRow) :
    Reply GenView :=
  sendThrough 200 (getGeneration userId id db)

/-! ## Input validation (`utils/validation.ts`) -/

/-- Model of JavaScript `parseInt(v, 10)`: skip leading whitespace, an
optional sign, then the maximal run of decimal digits; no digits means
`NaN`, modelled as `none`. -/
def jsParseInt (s : String) : Option Int :=
  let cs := s.toList.dropWhile (fun c => c = ' ' ∨ c = '\t' ∨ c = '\n' ∨ c = '\r')
  let signAndRest : Int × List Char :=
    match cs with
    | '-' :: rest => (-1, rest)
    | '+' :: rest => (1, rest)
    | rest => (1, rest)
  let digits := signAndRest.2.takeWhile Char.isDigit
  if digits.isEmpty then none
  else some (signAndRest.1 *
    (digits.foldl (fun acc c => acc * 10 + (c.toNat - 48)) 0 : Nat))

/-- Model of the `limit` transform in `getGenerationsSchema`
(`validation.ts` lines 22-28): missing value defaults to 5, a `NaN` parse
defaults to 5, otherwise `Math.min(Math.max(num, 1), 20)`. -/
def parseLimit : Option String → Int
  | none => 5
  | some v =>
    match jsParseInt v with
    | none => 5
    | some n => min (max n 1) 20

/-- Effective `LIMIT` value handed to the SQL query (always in [1, 20] or
the default 5, hence a `Nat`). -/
def effLimit (lp : Option String) : Nat := (parseLimit lp).toNat

/-- Decision of `createGenerationSchema`'s prompt rule (`validation.ts`
line 16): `z.string().min(1).max(500)` — length between 1 and 500, with no
trimming.  String length counts characters, which agrees with
JavaScript's UTF-16 `length` on the basic multilingual plane. -/
def promptAccepted (p : String) : Bool :=
  1 ≤ p.length ∧ p.length ≤ 500

/-- Decision of the `style` enum rule (`validation.ts` lines 17-19). -/
def styleAccepted (s : String) : Bool :=
  s = "realistic" ∨ s = "artistic" ∨ s = "cartoon" ∨ s = "vintage"

/-- Model of `createGenerationSchema.parse` (`validation.ts` lines 15-20):
a failing rule throws a `ZodError` whose first issue message is the
configured one (`'Prompt is required'` for `min`, `'Prompt too long'` for
`max`, `'Invalid style option'` for the enum), issues being collected in
field order. -/
def createGenerationParse (prompt style : String) :
    Except ThrownErr (String × String) :=
  if prompt.length < 1 then .error (zodError "Prompt is required")
  else if 500 < prompt.length then .error (zodError "Prompt too long")
  else if ¬ styleAccepted style then .error (zodError "Invalid style option")
  else .ok (prompt, style)

/-- Uploaded file as multer presents it to the controller. -/
structure UploadedFile where
  path : String
  mimetype : String
  size : Nat
  deriving Repr, DecidableEq

/-- Model of `validateImageFile` (`validation.ts` lines 31-44). -/
def validateImageFile (mimetype : String) (size : Nat) : Option String :=
  if ¬ (mimetype = "image/jpeg" ∨ mimetype = "image/jpg" ∨ mimetype = "image/png") then
    some "Only JPEG and PNG files are allowed"
  else if 10 * 1024 * 1024 < size then
    some "File size must be less than 10MB"
  else none

/-- Payload of the 201 create response (`generationsController.ts` lines
76-88). -/
structure CreatedSummary where
  id : String
  prompt : String
  style : String
  status : String
  created_at : Nat
  deriving Repr, DecidableEq

/-- Model of `createGeneration` (`generationsController.ts` lines 42-89)
for an authenticated caller: schema validation, file presence check, file
validation, then the insert; returns the resulting database next to the
controller outcome, so that "no row is created on rejection" is a statement
of the model.  The fire-and-forget `processGeneration` hand-off is modelled
separately as a transition of the server state. -/
def createGenerationRun (userId : Nat) (prompt style : String)
    (file : Option UploadedFile) (genId : String) (now : Nat)
    (db : List GenRow) : List GenRow × Except ThrownErr CreatedSummary :=
  match createGenerationParse prompt style with
  | .error e => (db, .error e)
  | .ok _ =>
    match file with
    | none => (db, .error (appError "Image file is required" 400))
    | some f =>
      match validateImageFile f.mimetype f.size with
      | some msg => (db, .error (appError msg 400))
      | none =>
        match genCreate db genId userId prompt style (some f.path) now with
        | .error e => (db, .error e)
        | .ok db2 =>
          (db2, .ok { id := genId, prompt := prompt, style := style,
                      status := "processing", created_at := now })

/-! ## Listing (`GET /api/generations`) -/

/-- Ordering used by `ORDER BY created_at DESC`. -/
def createdDesc (a b : GenRow) : Prop := b.created_at ≤ a.created_at

instance : DecidableRel createdDesc := fun a b =>
  inferInstanceAs (Decidable (b.created_at ≤ a.created_at))

instance : IsTotal GenRow createdDesc :=
  ⟨fun a b => (Nat.le_total b.created_at a.created_at).imp id id⟩

instance : IsTrans GenRow createdDesc :=
  ⟨fun _ _ _ hab hbc => Nat.le_trans hbc hab⟩

/-- Model of `GenerationModel.findByUserId` (`User.ts` lines 158-174):
`SELECT * FROM generations WHERE user_id = ? ORDER BY created_at DESC
LIMIT ?`. -/
def findByUserId (db : List GenRow) (userId : Nat) (limit : Nat) :
    List GenRow :=
  (((db.filter (fun g => g.user_id = userId)).insertionSort createdDesc).take limit)

/-- Model of `getGenerations` (`generationsController.ts` lines 116-145)
after authentication: parse the limit, query, serialise. -/
def getGenerationsRun (db : List GenRow) (userId : Nat)
    (limitParam : Option String) : List GenView :=
  (findByUserId db userId (effLimit limitParam)).map toGenView

/-! ## Background processor (`generationsController.ts` lines 16-40 and
91-114)

`simulateProcessing` always resolves (never rejects), with either
`success: false` or `success: true` plus the name `result_<timestamp>.jpg`;
the weighted coin and timer are modelled as the explicit outcome input
`sim`.  The one genuinely fallible internal step is the
`fs.copyFile` materialisation, modelled by the `copyOk` input; `NODE_ENV`
is the explicit `isTest` input because lines 105-112 branch on it. -/

/-- Outcome of the weighted coin inside `simulateProcessing`. -/
inductive SimResult where
  | success
  | failed
  deriving Repr, DecidableEq

/-- Result path the processor materialises on success
(`generationsController.ts` lines 35 and 97). -/
def resultPathOf (originalImagePath : String) (now : Nat) : String :=
  pathJoin (pathDirname originalImagePath) ("result_" ++ toString now ++ ".jpg")

/-- Model of `processGeneration` (`generationsController.ts` lines
91-114).  An `Except.error` is the rejection of the returned promise; the
`try` body either updates to `completed` (after a successful copy), fails
the copy, or updates to `failed`; the `catch` logs and — only when
`NODE_ENV !== 'test'` — writes the `failed` status, itself fallibly. -/
def processGeneration (isTest : Bool) (id origPath : String)
    (sim : SimResult) (copyOk : Bool) (now : Nat) (db : List GenRow) :
    Except ThrownErr (List GenRow) :=
  let tryBody : Except ThrownErr (List GenRow) :=
    match sim with
    | .success =>
      if copyOk then updateStatus db id "completed" (some (resultPathOf origPath now))
      else .error (plainError "ENOENT: copyFile failed")
    | .failed => updateStatus db id "failed" none
  match tryBody with
  | .ok db2 => .ok db2
  | .error _ =>
    if isTest then .ok db
    else updateStatus db id "failed" none

/-- Model of the fire-and-forget call site
(`generationsController.ts` line 74):
`processGeneration(...).catch(console.error)` — a rejection is consumed
and the stored state is whatever the rejected run left behind (our
`updateStatus` model mutates nothing when it rejects). -/
def processGenerationSpawn (isTest : Bool) (id origPath : String)
    (sim : SimResult) (copyOk : Bool) (now : Nat) (db : List GenRow) :
    List GenRow :=
  match processGeneration isTest id origPath sim copyOk now db with
  | .ok db2 => db2
  | .error _ => db

/-! ## Server transition system for the job lifecycle

The exposed operations that write the `generations` table are exactly:
the insert inside `createGeneration` (`POST /api/generations`) and the
single `updateStatus` performed by the `processGeneration` task spawned
once for the freshly created id (`generationsController.ts` line 74).
`GET` routes only read.  The `pending` component records ids whose
spawned processor has not yet finished, enforcing that each id's
processor runs exactly once. -/

/-- Server-side state: the `generations` table plus the set of spawned,
unfinished processor tasks. -/
structure ServerState where
  gens : List GenRow
  pending : List String
  deriving Repr, DecidableEq

/-- One step of the server: a successful create request, or the
completion of a spawned processor task (with any coin outcome, copy
outcome, environment and clock). -/
inductive Step : ServerState → ServerState → Prop where
  | create (s : ServerState) (id : String) (userId : Nat)
      (prompt style path : String) (now : Nat)
      (hfresh : ∀ g ∈ s.gens, g.id ≠ id) :
      Step s ⟨s.gens ++ [{ id := id, user_id := userId, prompt := prompt,
                           style := style, image_path := jsOrNull (some path),
                           result_image_path := none, status := "processing",
                           created_at := now }], id :: s.pending⟩
  | finish (s : ServerState) (id origPath : String) (sim : SimResult)
      (copyOk isTest : Bool) (now : Nat) (hpend : id ∈ s.pending) :
      Step s ⟨processGenerationSpawn isTest id origPath sim copyOk now s.gens,
              s.pending.erase id⟩

/-- States reachable from the empty database with no spawned tasks. -/
inductive Reachable : ServerState → Prop where
  | init : Reachable ⟨[], []⟩
  | step {s t : ServerState} : Reachable s → Step s t → Reachable t

/-- Inductive invariant of the job store: ids are unique, pending ids are
unique ids of stored rows, every status is one of the three literals, a
row whose processor is still pending is `processing`, the result path is
present exactly on `completed` rows, and any stored result path is a
non-empty string. -/
structure Inv (s : ServerState) : Prop where
  idsNodup : (s.gens.map GenRow.id).Nodup
  pendNodup : s.pending.Nodup
  pendSub : ∀ i ∈ s.pending, i ∈ s.gens.map GenRow.id
  statusValid : ∀ g ∈ s.gens,
    g.status = "processing" ∨ g.status = "completed" ∨ g.status = "failed"
  pendProcessing : ∀ g ∈ s.gens, g.id ∈ s.pending → g.status = "processing"
  resultIff : ∀ g ∈ s.gens, (g.status = "completed" ↔ g.result_image_path ≠ none)
  resultNonempty : ∀ g ∈ s.gens, ∀ p, g.result_image_path = some p → p ≠ ""

/-! ## Authentication middleware (`middleware/auth.ts`)

`jwt.verify` outcomes are modelled explicitly.  A modelled fact about the
`jsonwebtoken` library: `TokenExpiredError` is a subclass of
`JsonWebTokenError`, so both error outcomes satisfy the
`instanceof jwt.JsonWebTokenError` test at `auth.ts` line 40. -/

/-- Outcome of `jwt.verify(token, JWT_SECRET)`. -/
inductive VerifyOutcome where
  | ok (userId : Nat) (email : String)
  | errTokenExpired
  | errInvalidSig
  deriving Repr, DecidableEq

/-- Thrown error corresponding to a failing `jwt.verify`: an expired token
throws `TokenExpiredError` (message `jwt expired`), a tampered token
throws `JsonWebTokenError` (message `invalid signature`); both are
instances of `jwt.JsonWebTokenError` by the library's class hierarchy. -/
def verifyThrown : VerifyOutcome → ThrownErr
  | .ok _ _ => plainError "unreachable"
  | .errTokenExpired =>
    { name := "TokenExpiredError", message := "jwt expired",
      statusCode := none, jwtInstance := true }
  | .errInvalidSig =>
    { name := "JsonWebTokenError", message := "invalid signature",
      statusCode := none, jwtInstance := true }

/-- Thrown error produced by the coverage-test mock of an expired token
(`tests/coverage.test.ts` lines 62-66): a plain `Error` with its `name`
field set to `'TokenExpiredError'` — crucially not an `instanceof
jwt.JsonWebTokenError`, unlike the real library's error. -/
def mockExpiredThrown : ThrownErr :=
  { name := "TokenExpiredError", message := "jwt expired",
    statusCode := none, jwtInstance := false }

/-- Model of `authenticateToken` (`auth.ts` lines 15-46): extract the
bearer token, verify it, load the user; the surrounding `catch` converts
any `instanceof jwt.JsonWebTokenError` value to
`AppError('Invalid token', 401)` and forwards everything else as-is. -/
def authenticateToken (verify : String → VerifyOutcome)
    (users : List UserRow) (authHeader : Option String) :
    Except ThrownErr UserRow :=
  let body : Except ThrownErr UserRow :=
    match authHeader.bind
        (fun h => ((splitOnChar ' ' h.toList).get? 1).map String.mk) with
    | none => .error (appError "Access token required" 401)
    | some t =>
      match verify t with
      | .ok userId _ =>
        match users.find? (fun u => u.id = userId) with
        | none => .error (plainError "User not found")
        | some u => .ok u
      | o => .error (verifyThrown o)
  match body with
  | .ok u => .ok u
  | .error e =>
    .error (if e.jwtInstance then appError "Invalid token" 401 else e)

/-- Reply of `GET /api/auth/me`: the middleware, then (on success) the
profile payload of the authenticated user. -/
def meRoute (verify : String → VerifyOutcome) (users : List UserRow)
    (authHeader : Option String) : Reply UserRow :=
  sendThrough 200 (authenticateToken verify users authHeader)

/-- Variant of `meRoute` for the error thrown by the coverage test's
mocked `jwt.verify` (not a `jwt.JsonWebTokenError` instance): the
middleware's `catch` forwards it untouched to `errorHandler`. -/
def meRouteMockExpired : Reply UserRow :=
  sendThrough 200
    (match (Except.error mockExpiredThrown : Except ThrownErr UserRow) with
     | .ok u => .ok u
     | .error e =>
       .error (if e.jwtInstance then appError "Invalid token" 401 else e))

/-! ## Client generation controller (`frontend/src/components/Studio.tsx`)

The controller is React function-component code: every render creates a
fresh `handleGenerate` closure whose free variables `retryCount` and
`abortController` are the *render-time* state values, and `setX(v)` only
affects later renders.  This capture discipline is the semantics of
JavaScript closures over `useState` values and is modelled explicitly:

* `ClosureEnv` is the pair of captured values a `handleGenerate` closure
  holds (`Studio.tsx` lines 141 and 147);
* the `setTimeout` callback at lines 146-150 lives in the same render
  scope, so it re-invokes the *same* closure with the *same* captured
  values, and its `abortController?.signal.aborted` check reads the
  captured value, not the current state;
* `AbortController` instances are numbered; `aborted` flags live in the
  state (`abortedCtrls`).

The executions a claim quantifies over fix the network behaviour: every
`apiService.createGeneration` call rejects with
`err.response.data.message = 'Model overloaded'` and the form holds a
valid file and a non-blank prompt, so the guard at lines 109-112 passes.
`calls` counts issued create-generation network calls. -/

/-- Values of `retryCount` and `abortController` captured by one render's
`handleGenerate` closure (the latter as an optional controller number). -/
structure ClosureEnv where
  retryCount : Nat
  abortController : Option Nat
  deriving Repr, DecidableEq

/-- Client controller state: the component's React state, the numbering
and aborted-set of `AbortController`s, the scheduled retry callback (with
its captured scope), and the count of network calls issued so far. -/
structure StudioState where
  retryCount : Nat
  abortController : Option Nat
  isGenerating : Bool
  error : String
  nextCtrl : Nat
  abortedCtrls : List Nat
  pendingRetry : Option ClosureEnv
  calls : Nat
  deriving Repr, DecidableEq

/-- `MAX_RETRIES` (`Studio.tsx` line 37). -/
def MAX_RETRIES : Nat := 3

/-- Error text set while a retry is scheduled (`Studio.tsx` line 142). -/
def retryingMsg (capturedRetryCount : Nat) : String :=
  "Model overloaded. Retrying... (" ++ toString (capturedRetryCount + 1) ++
    "/" ++ toString MAX_RETRIES ++ ")"

/-- Value of `ctrl?.signal.aborted` for a captured controller reference:
`undefined` (hence falsy) when the reference is `null`, otherwise the
controller's aborted flag. -/
def capturedAborted (s : StudioState) : Option Nat → Bool
  | none => false
  | some c => c ∈ s.abortedCtrls

/-- One complete run of `handleGenerate` (`Studio.tsx` lines 108-160) in
an execution where the form is valid and the network call rejects with
`'Model overloaded'`.  `env` is the closure's captured scope.  The run:
sets `isGenerating`/clears `error`, creates a fresh controller, issues the
call (rejected), and in the catch compares the *captured* `retryCount`
against `MAX_RETRIES`; within the retry branch it schedules the
`setTimeout` callback — which closes over the same scope `env` — and
returns early; the `finally` block then clears `isGenerating` and nulls
the `abortController` state. -/
def handleGenerateOverloaded (env : ClosureEnv) (s : StudioState) :
    StudioState :=
  let s := { s with isGenerating := true, error := "" }
  let c := s.nextCtrl
  let s := { s with abortController := some c, nextCtrl := c + 1 }
  let s := { s with calls := s.calls + 1 }
  let s :=
    if env.retryCount < MAX_RETRIES then
      { s with error := retryingMsg env.retryCount,
               retryCount := s.retryCount + 1,
               pendingRetry := some env }
    else
      { s with error := "Model overloaded", retryCount := 0 }
  { s with isGenerating := false, abortController := none }

/-- The user pressing Generate: the click invokes the latest render's
closure, whose captured scope is the current state. -/
def clickGenerate (s : StudioState) : StudioState :=
  handleGenerateOverloaded
    { retryCount := s.retryCount, abortController := s.abortController } s

/-- Expiry of the scheduled 2-second retry timer (`Studio.tsx` lines
146-150): the callback checks the aborted flag of its captured controller
reference and, when that is falsy, re-invokes the closure it was created
in — with the unchanged captured scope. -/
def fireRetry (s : StudioState) : StudioState :=
  match s.pendingRetry with
  | none => s
  | some env =>
    let s := { s with pendingRetry := none }
    if capturedAborted s env.abortController then s
    else handleGenerateOverloaded env s

/-- Model of `handleAbort` (`Studio.tsx` lines 162-170), invoked from the
latest render: abort the controller currently in state (if any), null it,
stop the spinner, reset the retry counter, clear the error. -/
def handleAbort (s : StudioState) : StudioState :=
  let s :=
    match s.abortController with
    | some c =>
      { s with abortedCtrls := c :: s.abortedCtrls, abortController := none }
    | none => s
  { s with isGenerating := false, retryCount := 0, error := "" }

/-- The idle state: fresh component, nothing scheduled, no calls yet. -/
def idleStudio : StudioState :=
  { retryCount := 0, abortController := none, isGenerating := false,
    error := "", nextCtrl := 0, abortedCtrls := [], pendingRetry := none,
    calls := 0 }

/-- State after the single submission and `n` expiries of the retry
timer, in the all-rejections-overloaded execution. -/
def studioAfter (n : Nat) : StudioState :=
  fireRetry^[n] (clickGenerate idleStudio)

/-! ## Concrete instances used by counterexamples and witnesses -/

/-- Closed form of the all-overloaded execution: after the click and `n`
timer expiries the captured scope is still the initial one, so another
retry is always scheduled and the call count keeps growing. -/
def loopState (n : Nat) : StudioState :=
  { retryCount := n + 1, abortController := none, isGenerating := false,
    error := retryingMsg 0, nextCtrl := n + 1, abortedCtrls := [],
    pendingRetry := some { retryCount := 0, abortController := none },
    calls := n + 1 }

/-- Job row used by concrete counterexamples and witnesses. -/
def c3Row : GenRow :=
  { id := "j1", user_id := 1, prompt := "p", style := "realistic",
    image_path := some "uploads/in.png", result_image_path := none,
    status := "processing", created_at := 0 }

/-- Upload file used by concrete counterexamples and witnesses. -/
def exFile : UploadedFile :=
  { path := "uploads/in.png", mimetype := "image/png", size := 1000 }

/-- Prompt of exactly 500 characters, for the boundary instance. -/
def prompt500 : String := String.mk (List.replicate 500 'a')

/-- Prompt of 501 characters, for the boundary instance. -/
def prompt501 : String := String.mk (List.replicate 501 'a')

/-- Row inserted by the witness trace's create step. -/
def wRow : GenRow :=
  { id := "j1", user_id := 1, prompt := "p", style := "realistic",
    image_path := jsOrNull (some "uploads/a.png"), result_image_path := none,
    status := "processing", created_at := 0 }

/-- Witness server state after one create. -/
def wMid : ServerState := ⟨[wRow], ["j1"]⟩

/-- Witness server state after the create and a successful processor
finish. -/
def wFinal : ServerState :=
  ⟨processGenerationSpawn false "j1" "uploads/a.png" .success true 5 [wRow],
   (["j1"] : List String).erase "j1"⟩

/-! ## Theorems -/

theorem studioAfter_eq (n : Nat) : studioAfter n = loopState n := by
  induction n with
  | zero => rfl
  | succ k ih =>
    have h : studioAfter (k + 1) = fireRetry (studioAfter k) := by
      simp [studioAfter, Function.iterate_succ_apply']
    rw [h, ih]; rfl

/-- C1.  The claim says that when every create-generation call rejects
with `'Model overloaded'`, a single submission from idle issues exactly
`1 + MAX_RETRIES = 4` network calls and then shows the last error as
final.  The code violates this: the retry guard at `Studio.tsx` line 141
and the timer callback at lines 146-150 read the closure-captured
`retryCount = 0` and `abortController = null` of the initial render, so
after every timer expiry another retry is scheduled — `n` expiries issue
`n + 1` calls (in particular 5 calls once the timer has fired 4 times,
strictly more than the claimed total of 4), a retry remains pending
forever, and the error shown is permanently the transient
`Retrying... (1/3)` message, never a final one. -/
theorem c1_retry_calls_unbounded (n : Nat) :
    (studioAfter n).calls = n + 1 ∧
    (studioAfter n).pendingRetry =
      some { retryCount := 0, abortController := none } ∧
    (studioAfter n).error = retryingMsg 0 ∧
    (studioAfter 4).calls = 5 := by
  rw [studioAfter_eq, studioAfter_eq]
  exact ⟨rfl, rfl, rfl, rfl⟩

/-- C2.  The claim says cancelling while an attempt is in flight or
waiting to retry prevents any further create-generation call and returns
the controller to idle with no error.  The code violates this for a
cancel during the retry wait: after the first rejection the `finally`
block (`Studio.tsx` lines 156-159) has already nulled the
`abortController` state, so `handleAbort` (lines 162-170) finds nothing
to abort, and the pending timer's guard reads the *captured* (null)
controller reference — so the timer still fires `handleGenerate` and a
second network call is issued, with the retrying error shown again. -/
theorem c2_cancel_resumes_retrying :
    (handleAbort (studioAfter 0)).error = "" ∧
    (handleAbort (studioAfter 0)).calls = 1 ∧
    (fireRetry (handleAbort (studioAfter 0))).calls = 2 ∧
    (fireRetry (handleAbort (studioAfter 0))).error = retryingMsg 0 := by
  exact ⟨rfl, rfl, rfl, rfl⟩

/-- C8.  The claim says an expired token yields 401 `'Token expired'` and
a tampered token 401 `'Invalid token'`, distinguishably.  The code
violates the expired half: the real library's `TokenExpiredError` is an
`instanceof jwt.JsonWebTokenError` (subclass), so the `catch` at
`auth.ts` lines 40-41 rewrites it to `AppError('Invalid token', 401)` and
the two cases are indistinguishable — both reply 401 `'Invalid token'`.
The `errorHandler` branch for `TokenExpiredError`
(`errorHandler.ts` lines 63-66) would produce `'Token expired'` but is
unreachable from the middleware; the repository's own coverage test only
passes because its mock throws a plain `Error` named `TokenExpiredError`
that is not an instance of the library class. -/
theorem c8_expired_vs_invalid :
    meRoute (fun _ => .errTokenExpired) [] (some "Bearer tok") =
      .failure 401 "Invalid token" ∧
    meRoute (fun _ => .errInvalidSig) [] (some "Bearer tok") =
      .failure 401 "Invalid token" ∧
    meRoute (fun _ => .errTokenExpired) [] (some "Bearer tok") =
      meRoute (fun _ => .errInvalidSig) [] (some "Bearer tok") ∧
    errorHandler (verifyThrown .errTokenExpired) = (401, "Token expired") ∧
    meRouteMockExpired = .failure 401 "Token expired" := by
  refine ⟨?_, ?_, ?_, ?_, ?_⟩ <;> rfl

/-- C10.  Any login that fails authentication — whether because no user
has the given email or because the password comparison fails — replies
401 with the identical message `'Invalid email or password'`; the two
causes produce equal responses, so login does not leak which emails are
registered. -/
theorem c10_login_indistinguishable
    (cmp₁ cmp₂ : String → String → Bool) (tok₁ tok₂ : Nat → String → String)
    (users₁ users₂ : List UserRow) (email₁ email₂ pw₁ pw₂ : String)
    (u : UserRow)
    (h1 : findByEmail users₁ email₁ = none)
    (h2 : findByEmail users₂ email₂ = some u)
    (h3 : cmp₂ pw₂ u.password = false) :
    loginRoute cmp₁ tok₁ users₁ email₁ pw₁ =
      .failure 401 "Invalid email or password" ∧
    loginRoute cmp₂ tok₂ users₂ email₂ pw₂ =
      .failure 401 "Invalid email or password" ∧
    loginRoute cmp₁ tok₁ users₁ email₁ pw₁ =
      loginRoute cmp₂ tok₂ users₂ email₂ pw₂ := by
  have e1 : login cmp₁ tok₁ users₁ email₁ pw₁ =
      .error (appError "Invalid email or password" 401) := by
    simp [login, h1]
  have e2 : login cmp₂ tok₂ users₂ email₂ pw₂ =
      .error (appError "Invalid email or password" 401) := by
    simp [login, h2, h3]
  refine ⟨?_, ?_, ?_⟩ <;> simp [loginRoute, sendThrough, e1, e2] <;>
    exact ⟨rfl, rfl⟩

/-- Concrete instantiation of `c10_login_indistinguishable`: an empty
store versus a store whose only user rejects the supplied password. -/
theorem c10_witness :
    loginRoute (fun _ _ => false) (fun _ _ => "t") [] "a@b.c" "pw" =
      .failure 401 "Invalid email or password" ∧
    loginRoute (fun _ _ => false) (fun _ _ => "t")
        [{ id := 1, email := "a@b.c", password := "h", created_at := "0" }]
        "a@b.c" "pw" =
      .failure 401 "Invalid email or password" ∧
    loginRoute (fun _ _ => false) (fun _ _ => "t") [] "a@b.c" "pw" =
      loginRoute (fun _ _ => false) (fun _ _ => "t")
        [{ id := 1, email := "a@b.c", password := "h", created_at := "0" }]
        "a@b.c" "pw" :=
  c10_login_indistinguishable (fun _ _ => false) (fun _ _ => false)
    (fun _ _ => "t") (fun _ _ => "t") []
    [{ id := 1, email := "a@b.c", password := "h", created_at := "0" }]
    "a@b.c" "a@b.c" "pw" "pw"
    { id := 1, email := "a@b.c", password := "h", created_at := "0" }
    rfl rfl rfl

theorem updRow_id (id st : String) (rp : Option String) (g : GenRow) :
    (updRow id st rp g).id = g.id := by
  unfold updRow; split <;> rfl

theorem updateStatus_ok (db : List GenRow) (id st : String)
    (rp : Option String) (hpresent : db.any (fun g => g.id = id) = true) :
    updateStatus db id st rp = .ok (db.map (updRow id st rp)) := by
  simp [updateStatus, hpresent]

theorem mem_map_updRow_status (db : List GenRow) (id st : String)
    (rp : Option String) :
    ∀ g' ∈ db.map (updRow id st rp), g'.id = id → g'.status = st := by
  intro g' hmem hid
  obtain ⟨g, hg, rfl⟩ := List.mem_map.mp hmem
  by_cases h : g.id = id
  · simp [updRow, h]
  · simp [updRow, h] at hid

/-- C3 (amended).  Outside the test environment the processor maps every
internal error — the failed materialization copy included — to a `failed`
terminal write: whenever the job row exists, `processGeneration` resolves
(no rejection escapes it; the spawn site's `.catch` would consume one
anyway) and afterwards the job's status is terminal, never left
`processing`. -/
theorem c3_amended_failed_write (id origPath : String) (sim : SimResult)
    (copyOk : Bool) (now : Nat) (db : List GenRow)
    (hpresent : db.any (fun g => g.id = id) = true) :
    ∃ db2,
      processGeneration false id origPath sim copyOk now db = .ok db2 ∧
      processGenerationSpawn false id origPath sim copyOk now db = db2 ∧
      ∀ g ∈ db2, g.id = id →
        g.status = "completed" ∨ g.status = "failed" := by
  cases sim with
  | success =>
    by_cases hc : copyOk
    · refine ⟨db.map (updRow id "completed" (some (resultPathOf origPath now))),
        ?_, ?_, ?_⟩
      · simp [processGeneration, hc, updateStatus_ok _ _ _ _ hpresent]
      · simp [processGenerationSpawn, processGeneration, hc,
          updateStatus_ok _ _ _ _ hpresent]
      · exact fun g hg hid => .inl (mem_map_updRow_status _ _ _ _ g hg hid)
    · refine ⟨db.map (updRow id "failed" none), ?_, ?_, ?_⟩
      · simp [processGeneration, hc, updateStatus_ok _ _ _ _ hpresent]
      · simp [processGenerationSpawn, processGeneration, hc,
          updateStatus_ok _ _ _ _ hpresent]
      · exact fun g hg hid => .inr (mem_map_updRow_status _ _ _ _ g hg hid)
  | failed =>
    refine ⟨db.map (updRow id "failed" none), ?_, ?_, ?_⟩
    · simp [processGeneration, updateStatus_ok _ _ _ _ hpresent]
    · simp [processGenerationSpawn, processGeneration,
        updateStatus_ok _ _ _ _ hpresent]
    · exact fun g hg hid => .inr (mem_map_updRow_status _ _ _ _ g hg hid)

/-- C3 (counterexample to the claim as stated).  With `NODE_ENV = 'test'`
the `catch` at `generationsController.ts` lines 104-113 skips the
`failed` write entirely: a copy failure leaves the job in status
`'processing'` and the processor resolves without any terminal update,
so the claim's universal guarantee fails in the test environment. -/
theorem c3_counterexample :
    processGeneration true "j1" "uploads/in.png" .success false 1 [c3Row] =
      .ok [c3Row] ∧
    c3Row.status = "processing" :=
  ⟨rfl, rfl⟩

/-- Concrete instantiation of `c3_amended_failed_write`: a failing copy
step in the non-test environment still ends in status `failed`. -/
theorem c3_witness :
    ∃ db2,
      processGeneration false "j1" "uploads/in.png" .success false 1 [c3Row] =
        .ok db2 ∧
      processGenerationSpawn false "j1" "uploads/in.png" .success false 1
        [c3Row] = db2 ∧
      ∀ g ∈ db2, g.id = "j1" →
        g.status = "completed" ∨ g.status = "failed" :=
  c3_amended_failed_write "j1" "uploads/in.png" .success false 1 [c3Row]
    (by decide)

/-- C6.  For an authenticated caller, fetching one job 404s when the id
does not exist (the store's `Error('Generation not found')` is mapped to
404 by the `not found` branch of `errorHandler`), 403s with exactly the
generic message `'Access denied'` when the job exists but belongs to a
different user, and returns 200 with the job view only for its owner. -/
theorem c6_get_generation_access (userId : Nat) (id : String)
    (db : List GenRow) :
    (db.find? (fun g => g.id = id) = none →
       getGenerationRoute userId id db = .failure 404 "Generation not found") ∧
    (∀ g, db.find? (fun g2 => g2.id = id) = some g → g.user_id ≠ userId →
       getGenerationRoute userId id db = .failure 403 "Access denied") ∧
    (∀ g, db.find? (fun g2 => g2.id = id) = some g → g.user_id = userId →
       getGenerationRoute userId id db = .success 200 (toGenView g)) := by
  refine ⟨?_, ?_, ?_⟩
  · intro h
    simp [getGenerationRoute, getGeneration, genFindById, h, sendThrough]
    exact ⟨rfl, rfl⟩
  · intro g hfind hne
    simp [getGenerationRoute, getGeneration, genFindById, hfind, hne,
      sendThrough]
    exact ⟨rfl, rfl⟩
  · intro g hfind heq
    simp [getGenerationRoute, getGeneration, genFindById, hfind, heq,
      sendThrough]

/-- Concrete instantiation of `c6_get_generation_access`: a one-row store,
probed for a missing id, by a non-owner, and by the owner. -/
theorem c6_witness :
    getGenerationRoute 1 "nope" [c3Row] = .failure 404 "Generation not found" ∧
    getGenerationRoute 2 "j1" [c3Row] = .failure 403 "Access denied" ∧
    getGenerationRoute 1 "j1" [c3Row] = .success 200 (toGenView c3Row) :=
  ⟨(c6_get_generation_access 1 "nope" [c3Row]).1 (by decide),
   (c6_get_generation_access 2 "j1" [c3Row]).2.1 c3Row (by decide) (by decide),
   (c6_get_generation_access 1 "j1" [c3Row]).2.2 c3Row (by decide) rfl⟩

/-- C7 (counterexample to the claim as stated).  The schema rule is
`z.string().min(1).max(500)` with no `.trim()` (`validation.ts` line 16),
so the one-space prompt `' '` — empty after trimming, hence to be
rejected according to the claim — is accepted and a job row is created
for it. -/
theorem c7_counterexample :
    jsTrim " " = "" ∧
    createGenerationRun 1 " " "realistic" (some exFile) "g1" 0 [] =
      ([{ id := "g1", user_id := 1, prompt := " ", style := "realistic",
          image_path := some "uploads/in.png", result_image_path := none,
          status := "processing", created_at := 0 }],
       .ok { id := "g1", prompt := " ", style := "realistic",
             status := "processing", created_at := 0 }) :=
  ⟨rfl, rfl⟩

/-- C7 (amended).  With a valid style and image file, a create request's
prompt is accepted iff its raw (untrimmed) length is between 1 and 500
characters — in particular a 500-character prompt is accepted and a
501-character one is rejected; a violating prompt is rejected with a
`ZodError` (the `ValidationError`), mapped to HTTP 400, with the database
unchanged, i.e. before any job row is created. -/
theorem c7_amended_prompt_validation (userId : Nat) (prompt style : String)
    (f : UploadedFile) (genId : String) (now : Nat) (db : List GenRow)
    (hstyle : styleAccepted style = true)
    (hfile : validateImageFile f.mimetype f.size = none)
    (hfresh : db.any (fun g => g.id = genId) = false) :
    ((1 ≤ prompt.length ∧ prompt.length ≤ 500) →
       createGenerationRun userId prompt style (some f) genId now db =
         (db ++ [{ id := genId, user_id := userId, prompt := prompt,
                   style := style, image_path := jsOrNull (some f.path),
                   result_image_path := none, status := "processing",
                   created_at := now }],
          .ok { id := genId, prompt := prompt, style := style,
                status := "processing", created_at := now })) ∧
    (prompt.length = 0 →
       createGenerationRun userId prompt style (some f) genId now db =
         (db, .error (zodError "Prompt is required"))) ∧
    (500 < prompt.length →
       createGenerationRun userId prompt style (some f) genId now db =
         (db, .error (zodError "Prompt too long"))) ∧
    (errorHandler (zodError "Prompt is required")).1 = 400 ∧
    (errorHandler (zodError "Prompt too long")).1 = 400 := by
  refine ⟨?_, ?_, ?_, rfl, rfl⟩
  · rintro ⟨h1, h2⟩
    simp [createGenerationRun, createGenerationParse, genCreate,
      Nat.not_lt.mpr h1, Nat.not_lt.mpr h2, hstyle, hfile, hfresh]
  · intro h0
    simp [createGenerationRun, createGenerationParse, h0]
  · intro hlong
    have h1 : ¬ prompt.length < 1 := by omega
    simp [createGenerationRun, createGenerationParse, h1, hlong]

/-- Concrete instantiation of `c7_amended_prompt_validation`: the
500-character prompt is accepted (row created), the 501-character prompt
is rejected with the length `ZodError` and no row. -/
theorem c7_witness :
    createGenerationRun 1 prompt500 "realistic" (some exFile) "g1" 0 [] =
      ([{ id := "g1", user_id := 1, prompt := prompt500, style := "realistic",
          image_path := jsOrNull (some exFile.path),
          result_image_path := none, status := "processing",
          created_at := 0 }],
       .ok { id := "g1", prompt := prompt500, style := "realistic",
             status := "processing", created_at := 0 }) ∧
    createGenerationRun 1 prompt501 "realistic" (some exFile) "g1" 0 [] =
      ([], .error (zodError "Prompt too long")) :=
  ⟨by
    have hlen : prompt500.length = 500 := by
      exact List.length_replicate 500 'a'
    have h := (c7_amended_prompt_validation 1 prompt500 "realistic" exFile
      "g1" 0 [] rfl rfl rfl).1
    simpa using h ⟨by omega, by omega⟩,
   by
    have hlen : prompt501.length = 501 := by
      exact List.length_replicate 501 'a'
    have h := (c7_amended_prompt_validation 1 prompt501 "realistic" exFile
      "g1" 0 [] rfl rfl rfl).2.2.1
    simpa using h (by omega)⟩

/-- C9.  Listing returns only the caller's jobs, ordered newest first by
creation timestamp, truncated to the effective limit; the effective limit
defaults to 5 when the query value is missing and is the supplied numeric
value clamped to [1, 20] otherwise. -/
theorem c9_list_clamped_sorted (db : List GenRow) (userId : Nat)
    (lp : Option String) (s : String) (n : Int)
    (hparse : jsParseInt s = some n) :
    parseLimit none = 5 ∧
    parseLimit (some s) = min (max n 1) 20 ∧
    getGenerationsRun db userId lp =
      (findByUserId db userId (effLimit lp)).map toGenView ∧
    (∀ g ∈ findByUserId db userId (effLimit lp), g.user_id = userId) ∧
    List.Sorted createdDesc (findByUserId db userId (effLimit lp)) ∧
    (findByUserId db userId (effLimit lp)).length ≤ effLimit lp := by
  refine ⟨rfl, ?_, rfl, ?_, ?_, ?_⟩
  · simp [parseLimit, hparse]
  · intro g hg
    have h1 : g ∈ (db.filter (fun g => g.user_id = userId)).insertionSort
        createdDesc := List.mem_of_mem_take hg
    have h2 : g ∈ db.filter (fun g => g.user_id = userId) :=
      (List.mem_insertionSort createdDesc).mp h1
    have := (List.mem_filter.mp h2).2
    simpa using this
  · exact List.Pairwise.sublist (List.take_sublist _ _)
      (List.sorted_insertionSort createdDesc _)
  · exact List.length_take_le _ _

/-- Concrete instantiation of `c9_list_clamped_sorted`: two rows of user
1 and one of user 2, queried with `limit=100` (clamped to 20). -/
theorem c9_witness :
    parseLimit none = 5 ∧
    parseLimit (some "100") = min (max (100 : Int) 1) 20 ∧
    getGenerationsRun
        [{ c3Row with id := "a", created_at := 1 },
         { c3Row with id := "b", user_id := 2, created_at := 2 },
         { c3Row with id := "c", created_at := 3 }] 1 (some "100") =
      (findByUserId
        [{ c3Row with id := "a", created_at := 1 },
         { c3Row with id := "b", user_id := 2, created_at := 2 },
         { c3Row with id := "c", created_at := 3 }] 1
        (effLimit (some "100"))).map toGenView ∧
    (∀ g ∈ findByUserId
        [{ c3Row with id := "a", created_at := 1 },
         { c3Row with id := "b", user_id := 2, created_at := 2 },
         { c3Row with id := "c", created_at := 3 }] 1
        (effLimit (some "100")), g.user_id = 1) ∧
    List.Sorted createdDesc (findByUserId
        [{ c3Row with id := "a", created_at := 1 },
         { c3Row with id := "b", user_id := 2, created_at := 2 },
         { c3Row with id := "c", created_at := 3 }] 1
        (effLimit (some "100"))) ∧
    (findByUserId
        [{ c3Row with id := "a", created_at := 1 },
         { c3Row with id := "b", user_id := 2, created_at := 2 },
         { c3Row with id := "c", created_at := 3 }] 1
        (effLimit (some "100"))).length ≤ effLimit (some "100") :=
  c9_list_clamped_sorted
    [{ c3Row with id := "a", created_at := 1 },
     { c3Row with id := "b", user_id := 2, created_at := 2 },
     { c3Row with id := "c", created_at := 3 }] 1 (some "100") "100" 100
    (by decide)

theorem string_length_ne_zero {s : String} (h : s.length ≠ 0) : s ≠ "" :=
  fun he => h (by rw [he]; rfl)

theorem pathJoin_ne_empty (a b : String) (hb : b ≠ "") : pathJoin a b ≠ "" := by
  unfold pathJoin
  split
  · exact hb
  · apply string_length_ne_zero
    rw [String.length_append, String.length_append]
    have h1 : "/".length = 1 := rfl
    omega

theorem resultPathOf_ne_empty (p : String) (now : Nat) :
    resultPathOf p now ≠ "" := by
  apply pathJoin_ne_empty
  apply string_length_ne_zero
  rw [String.length_append, String.length_append]
  have h7 : "result_".length = 7 := rfl
  omega

theorem genrow_id_inj {l : List GenRow} (h : (l.map GenRow.id).Nodup)
    {a b : GenRow} (ha : a ∈ l) (hb : b ∈ l) (hid : a.id = b.id) : a = b :=
  List.inj_on_of_nodup_map h ha hb hid

theorem map_id_updRow (db : List GenRow) (id st : String)
    (rp : Option String) :
    (db.map (updRow id st rp)).map GenRow.id = db.map GenRow.id := by
  rw [List.map_map]
  exact List.map_congr_left (fun g _ => updRow_id id st rp g)

theorem inv_erase {s : ServerState} (hs : Inv s) (id : String) :
    Inv ⟨s.gens, s.pending.erase id⟩ := by
  refine ⟨hs.idsNodup, hs.pendNodup.erase id, ?_, hs.statusValid, ?_,
    hs.resultIff, hs.resultNonempty⟩
  · exact fun i hi => hs.pendSub i (List.mem_of_mem_erase hi)
  · exact fun g hg hgid => hs.pendProcessing g hg (List.mem_of_mem_erase hgid)

theorem inv_upd {s : ServerState} (hs : Inv s) (id st : String)
    (rp : Option String)
    (hcase : (st = "completed" ∧ ∃ p, rp = some p ∧ p ≠ "") ∨
             (st = "failed" ∧ rp = none)) :
    Inv ⟨s.gens.map (updRow id st rp), s.pending.erase id⟩ := by
  have hids := map_id_updRow s.gens id st rp
  refine ⟨?_, hs.pendNodup.erase id, ?_, ?_, ?_, ?_, ?_⟩
  · rw [hids]; exact hs.idsNodup
  · intro i hi; rw [hids]; exact hs.pendSub i (List.mem_of_mem_erase hi)
  · intro g2 hg2
    obtain ⟨g, hg, rfl⟩ := List.mem_map.mp hg2
    by_cases h : g.id = id
    · rcases hcase with ⟨hst, _⟩ | ⟨hst, _⟩ <;> simp [updRow, h, hst]
    · simp only [updRow, if_neg h]
      exact hs.statusValid g hg
  · intro g2 hg2 hgid
    obtain ⟨g, hg, rfl⟩ := List.mem_map.mp hg2
    rw [updRow_id] at hgid
    by_cases h : g.id = id
    · exfalso
      rw [h] at hgid
      exact ((hs.pendNodup.mem_erase_iff).mp hgid).1 rfl
    · simp only [updRow, if_neg h]
      exact hs.pendProcessing g hg (List.mem_of_mem_erase hgid)
  · intro g2 hg2
    obtain ⟨g, hg, rfl⟩ := List.mem_map.mp hg2
    by_cases h : g.id = id
    · rcases hcase with ⟨hst, p, hp, hpne⟩ | ⟨hst, hrp⟩
      · subst hst; subst hp
        simp [updRow, h, jsOrNull, hpne]
      · subst hst; subst hrp
        simp [updRow, h, jsOrNull]
    · simp only [updRow, if_neg h]
      exact hs.resultIff g hg
  · intro g2 hg2 p hp
    obtain ⟨g, hg, rfl⟩ := List.mem_map.mp hg2
    by_cases h : g.id = id
    · rcases hcase with ⟨hst, q, hq, hqne⟩ | ⟨hst, hrp⟩
      · subst hq
        simp [updRow, h, jsOrNull, hqne] at hp
        rw [← hp]; exact hqne
      · subst hrp
        simp [updRow, h, jsOrNull] at hp
    · simp only [updRow, if_neg h] at hp
      exact hs.resultNonempty g hg p hp

theorem inv_create {s : ServerState} (hs : Inv s) (id : String)
    (userId : Nat) (prompt style path : String) (now : Nat)
    (hfresh : ∀ g ∈ s.gens, g.id ≠ id) :
    Inv ⟨s.gens ++ [{ id := id, user_id := userId, prompt := prompt,
                      style := style, image_path := jsOrNull (some path),
                      result_image_path := none, status := "processing",
                      created_at := now }], id :: s.pending⟩ := by
  have hidnotin : id ∉ s.gens.map GenRow.id := by
    intro hmem
    obtain ⟨g, hg, hgid⟩ := List.mem_map.mp hmem
    exact hfresh g hg hgid
  have hpendnotin : id ∉ s.pending := fun hmem => hidnotin (hs.pendSub id hmem)
  refine ⟨?_, ?_, ?_, ?_, ?_, ?_, ?_⟩
  · rw [List.map_append]
    rw [List.nodup_append]
    refine ⟨hs.idsNodup, by simp, ?_⟩
    intro a ha hb
    simp at hb
    subst hb
    exact hidnotin ha
  · exact List.nodup_cons.mpr ⟨hpendnotin, hs.pendNodup⟩
  · intro i hi
    rw [List.map_append]
    rcases List.mem_cons.mp hi with rfl | hi2
    · apply List.mem_append_right; simp
    · exact List.mem_append_left _ (hs.pendSub i hi2)
  · intro g hg
    rcases List.mem_append.mp hg with hg1 | hg2
    · exact hs.statusValid g hg1
    · simp at hg2; subst hg2; left; rfl
  · intro g hg hgid
    rcases List.mem_append.mp hg with hg1 | hg2
    · rcases List.mem_cons.mp hgid with heq | hin
      · exact absurd heq (hfresh g hg1)
      · exact hs.pendProcessing g hg1 hin
    · simp at hg2; subst hg2; rfl
  · intro g hg
    rcases List.mem_append.mp hg with hg1 | hg2
    · exact hs.resultIff g hg1
    · simp at hg2; subst hg2; simp
  · intro g hg p hp
    rcases List.mem_append.mp hg with hg1 | hg2
    · exact hs.resultNonempty g hg1 p hp
    · simp at hg2; subst hg2; simp at hp

theorem spawn_eq (isTest : Bool) (id origPath : String) (sim : SimResult)
    (copyOk : Bool) (now : Nat) (db : List GenRow) :
    processGenerationSpawn isTest id origPath sim copyOk now db = db ∨
    (db.any (fun g => g.id = id) = true ∧
     (processGenerationSpawn isTest id origPath sim copyOk now db =
        db.map (updRow id "completed" (some (resultPathOf origPath now))) ∨
      processGenerationSpawn isTest id origPath sim copyOk now db =
        db.map (updRow id "failed" none))) := by
  by_cases hp : db.any (fun g => g.id = id) = true
  · cases sim with
    | success =>
      by_cases hc : copyOk
      · exact .inr ⟨hp, .inl (by
          simp [processGenerationSpawn, processGeneration, hc,
            updateStatus_ok _ _ _ _ hp])⟩
      · cases isTest with
        | true =>
          left
          simp [processGenerationSpawn, processGeneration, hc]
        | false =>
          exact .inr ⟨hp, .inr (by
            simp [processGenerationSpawn, processGeneration, hc,
              updateStatus_ok _ _ _ _ hp])⟩
    | failed =>
      exact .inr ⟨hp, .inr (by
        simp [processGenerationSpawn, processGeneration,
          updateStatus_ok _ _ _ _ hp])⟩
  · left
    have hp2 : db.any (fun g => g.id = id) = false := by
      simpa using hp
    cases sim <;> cases isTest <;> by_cases hc : copyOk <;>
      simp [processGenerationSpawn, processGeneration, updateStatus, hp2, hc]

theorem inv_step {s t : ServerState} (hs : Inv s) (hstep : Step s t) :
    Inv t := by
  cases hstep with
  | create id userId prompt style path now hfresh =>
    exact inv_create hs id userId prompt style path now hfresh
  | finish id origPath sim copyOk isTest now hpend =>
    rcases spawn_eq isTest id origPath sim copyOk now s.gens with
      heq | ⟨hp, heq | heq⟩
    · rw [heq]; exact inv_erase hs id
    · rw [heq]
      exact inv_upd hs id "completed" (some (resultPathOf origPath now))
        (.inl ⟨rfl, resultPathOf origPath now, rfl,
          resultPathOf_ne_empty origPath now⟩)
    · rw [heq]
      exact inv_upd hs id "failed" none (.inr ⟨rfl, rfl⟩)

theorem reachable_inv {s : ServerState} (h : Reachable s) : Inv s := by
  induction h with
  | init =>
    exact ⟨by simp, by simp, by simp, by simp, by simp, by simp, by simp⟩
  | step hr hst ih => exact inv_step ih hst

/-- C4.  In every reachable server state each stored job's status is one
of the three literals `'processing'`, `'completed'`, `'failed'`; across
any step of the exposed operations a row that did not exist before the
step exists afterwards only with status `'processing'` (jobs are created
`processing`), and a row whose status is terminal (`'completed'` or
`'failed'`) keeps exactly that status (no transition out of a terminal
state). -/
theorem c4_status_lifecycle (s : ServerState) (hs : Reachable s) :
    (∀ g ∈ s.gens,
      g.status = "processing" ∨ g.status = "completed" ∨ g.status = "failed") ∧
    (∀ t, Step s t →
      (∀ g2 ∈ t.gens, (∀ g ∈ s.gens, g.id ≠ g2.id) →
        g2.status = "processing") ∧
      (∀ g ∈ s.gens, g.status = "completed" ∨ g.status = "failed" →
        ∀ g2 ∈ t.gens, g2.id = g.id → g2.status = g.status)) := by
  have hinv := reachable_inv hs
  refine ⟨hinv.statusValid, ?_⟩
  intro t hstep
  cases hstep with
  | create id userId prompt style path now hfresh =>
    constructor
    · intro g2 hg2 hnew
      rcases List.mem_append.mp hg2 with hg1 | hg1
      · exact absurd rfl (hnew g2 hg1)
      · simp at hg1; subst hg1; rfl
    · intro g hg hterm g2 hg2 hid
      rcases List.mem_append.mp hg2 with hg1 | hg1
      · rw [genrow_id_inj hinv.idsNodup hg1 hg hid]
      · simp at hg1; subst hg1
        exact absurd hid.symm (hfresh g hg)
  | finish id origPath sim copyOk isTest now hpend =>
    rcases spawn_eq isTest id origPath sim copyOk now s.gens with
      heq | ⟨hp, hcases⟩
    · rw [heq]
      constructor
      · intro g2 hg2 hnew
        exact absurd rfl (hnew g2 hg2)
      · intro g hg hterm g2 hg2 hid
        rw [genrow_id_inj hinv.idsNodup hg2 hg hid]
    · have main : ∀ st rp,
          (∀ g2 ∈ s.gens.map (updRow id st rp),
            (∀ g ∈ s.gens, g.id ≠ g2.id) → g2.status = "processing") ∧
          (∀ g ∈ s.gens, g.status = "completed" ∨ g.status = "failed" →
            ∀ g2 ∈ s.gens.map (updRow id st rp), g2.id = g.id →
              g2.status = g.status) := by
        intro st rp
        constructor
        · intro g2 hg2 hnew
          obtain ⟨g, hg, rfl⟩ := List.mem_map.mp hg2
          have := hnew g hg
          rw [updRow_id] at this
          exact absurd rfl this
        · intro g hg hterm g2 hg2 hid
          obtain ⟨g1, hg1, rfl⟩ := List.mem_map.mp hg2
          rw [updRow_id] at hid
          have hgg : g1 = g := genrow_id_inj hinv.idsNodup hg1 hg hid
          subst hgg
          by_cases h : g1.id = id
          · exfalso
            have hproc := hinv.pendProcessing g1 hg1 (h ▸ hpend)
            rcases hterm with hterm | hterm <;> rw [hproc] at hterm <;>
              exact absurd hterm (by decide)
          · simp [updRow, h]
      rcases hcases with heq | heq <;> rw [heq]
      · exact main "completed" (some (resultPathOf origPath now))
      · exact main "failed" none

/-- C5.  In every reachable server state, a job's stored result path —
and the `resultImageUrl` the API derives from it — is non-null exactly
when the job's status is `'completed'`; in particular a `'processing'`
or `'failed'` job always has a null result path. -/
theorem c5_result_iff_completed (s : ServerState) (hs : Reachable s) :
    ∀ g ∈ s.gens,
      (g.status = "completed" ↔ g.result_image_path ≠ none) ∧
      (g.status = "completed" ↔ (toGenView g).resultImageUrl ≠ none) ∧
      ((g.status = "processing" ∨ g.status = "failed") →
        g.result_image_path = none) := by
  have hinv := reachable_inv hs
  intro g hg
  have h1 := hinv.resultIff g hg
  refine ⟨h1, ?_, ?_⟩
  · cases hres : g.result_image_path with
    | none => rw [hres] at h1; simp [toGenView, jsOrNull, hres, h1]
    | some p =>
      have hpne := hinv.resultNonempty g hg p hres
      rw [hres] at h1
      simp [toGenView, jsOrNull, hres, hpne, h1]
  · intro hstat
    have hnc : ¬ g.status = "completed" := by
      rcases hstat with h | h <;> rw [h] <;> decide
    have := mt h1.mpr hnc
    exact not_not.mp this

theorem wMid_reachable : Reachable wMid :=
  .step .init
    (Step.create ⟨[], []⟩ "j1" 1 "p" "realistic" "uploads/a.png" 0 (by simp))

theorem wFinal_reachable : Reachable wFinal :=
  .step wMid_reachable
    (Step.finish wMid "j1" "uploads/a.png" .success true false 5
      (by simp [wMid]))

/-- Concrete instantiation of `c4_status_lifecycle` at the reachable
state `wFinal` (one job created and completed). -/
theorem c4_witness :
    Reachable wFinal ∧
    ((∀ g ∈ wFinal.gens,
        g.status = "processing" ∨ g.status = "completed" ∨
          g.status = "failed") ∧
     (∀ t, Step wFinal t →
       (∀ g2 ∈ t.gens, (∀ g ∈ wFinal.gens, g.id ≠ g2.id) →
          g2.status = "processing") ∧
       (∀ g ∈ wFinal.gens, g.status = "completed" ∨ g.status = "failed" →
          ∀ g2 ∈ t.gens, g2.id = g.id → g2.status = g.status))) :=
  ⟨wFinal_reachable, c4_status_lifecycle wFinal wFinal_reachable⟩

/-- Concrete instantiation of `c5_result_iff_completed` at the reachable
state `wFinal`. -/
theorem c5_witness :
    Reachable wFinal ∧
    (∀ g ∈ wFinal.gens,
      (g.status = "completed" ↔ g.result_image_path ≠ none) ∧
      (g.status = "completed" ↔ (toGenView g).resultImageUrl ≠ none) ∧
      ((g.status = "processing" ∨ g.status = "failed") →
        g.result_image_path = none)) :=
  ⟨wFinal_reachable, c5_result_iff_completed wFinal wFinal_reachable⟩

end ImageGen
